import Mathlib

/-!
Verification of the QWOP articulated character controller.

This file shallowly embeds the parts of the repository that the claims
C1..C10 are about: the per-joint motor commands issued by
`Character.applyQWOPControls` and `Character.applyInputForces`
(src/character.js), the arm balance controller `Character.applyArmBalancing`,
the impulse gate timer, the fall detector `Character.isHeadTouchingGround`,
the reset pipeline `Character.reset` together with the wall-clock
stabilization timers of `Character.stabilizeJoints`, and the maximum-distance
score tracking of `Game.update`.

Numeric constants are taken from src/constants.js and written as exact
rationals (0.1 = 1/10, 0.05 = 1/20, and so on); the angular quantities that
involve pi (shoulder rest angle and limits, trigonometric head placement)
are modelled over the reals.
-/

namespace QWOP

/-! ### Constants (src/constants.js) -/

/-- PHYSICS.MAX_MOTOR_VELOCITY = 20.0 -/
def maxMotorVelocity : ℚ := 20

/-- PHYSICS.JOINT_MOTOR_MAX_FORCE = 100.0 -/
def jointMotorMaxForce : ℚ := 100

/-- PHYSICS.LINEAR_DAMPING = 0.15 -/
def linearDamping : ℚ := 3 / 20

/-- PHYSICS.INITIAL_POSITION = (0, -3.5) -/
def initialPositionX : ℚ := 0

/-- PHYSICS.INITIAL_POSITION y-coordinate -/
def initialPositionY : ℚ := -(7 / 2)

/-- CHARACTER.JOINTS.KNEE.REST_ANGLE = -0.05 -/
def kneeRestAngle : ℚ := -(1 / 20)

/-- CHARACTER.JOINTS.KNEE.STIFFNESS = 10.0 -/
def kneeStiffness : ℚ := 10

/-- CHARACTER.JOINTS.KNEE.DAMPING = 1.0 -/
def kneeDamping : ℚ := 1

/-- Character.impulseInterval = 80 milliseconds. -/
def impulseInterval : ℚ := 80

/-! ### Motor states and input

The spec's data model gives every joint a MotorState that is exactly one of
Disabled, VelocityDrive or PositionHold.  The code issues the corresponding
Rapier calls `configureMotorVelocity` / `configureMotorPosition`; a joint on
which neither has been called is in the disabled state.
-/

/-- MotorState of a joint as defined in the spec data model. -/
inductive MotorState
  | disabled
  | velocityDrive (targetVelocity maxForce : ℚ)
  | positionHold (targetAngle stiffness damping : ℚ)
deriving DecidableEq, Repr

/-- ControlInputState: the four QWOP key booleans read once per update step
(`inputHandler.isKeyPressed` on KEYS.Q / W / O / P). -/
structure InputState where
  q : Bool
  w : Bool
  o : Bool
  p : Bool
deriving DecidableEq, Repr

/-- Character.disableJointMotor: the code "disables" a joint by calling
`configureMotorVelocity(0, 0.1)` - a velocity drive with target velocity 0
and max force 0.1, not a true disabled state. -/
def disableJointMotor : MotorState := .velocityDrive 0 (1 / 10)

/-- Motor states of the four player-controllable leg joints after one
`applyQWOPControls` call. -/
structure JointMotors where
  leftHip : MotorState
  rightHip : MotorState
  leftKnee : MotorState
  rightKnee : MotorState
deriving DecidableEq, Repr

/-- Character.applyQWOPControls, restricted to the motor commands it issues
(the gated thigh/calf impulses are modelled separately by
`countLeftThighKicks`).  Pressed hip keys command
`applyJointMotor(hip, MAX_MOTOR_VELOCITY, JOINT_MOTOR_MAX_FORCE)`; released
hip keys command `disableJointMotor`.  Pressed knee keys command
`applyJointMotor(knee, -MAX_MOTOR_VELOCITY, JOINT_MOTOR_MAX_FORCE)`; released
knee keys command `configureMotorPosition(REST_ANGLE, STIFFNESS*2, DAMPING*2)`
(all joints assumed present and motor-capable, as after a successful build). -/
def applyQWOPControls (inp : InputState) : JointMotors where
  leftHip :=
    if inp.q then .velocityDrive maxMotorVelocity jointMotorMaxForce
    else disableJointMotor
  rightHip :=
    if inp.w then .velocityDrive maxMotorVelocity jointMotorMaxForce
    else disableJointMotor
  leftKnee :=
    if inp.o then .velocityDrive (-maxMotorVelocity) jointMotorMaxForce
    else .positionHold kneeRestAngle (kneeStiffness * 2) (kneeDamping * 2)
  rightKnee :=
    if inp.p then .velocityDrive (-maxMotorVelocity) jointMotorMaxForce
    else .positionHold kneeRestAngle (kneeStiffness * 2) (kneeDamping * 2)

/-! ### The null-joint guard of Character.applyInputForces (C9) -/

/-- The four controllable leg joints. -/
inductive LegJoint
  | leftHip
  | rightHip
  | leftKnee
  | rightKnee
deriving DecidableEq, Repr

/-- Nullable joint handles, as stored in `this.joints` after
`createJoints`: `PhysicsWorld.createRevoluteJoint` returns null on failure,
modelled by `none`. -/
structure Joints where
  leftHip : Option Unit
  rightHip : Option Unit
  leftKnee : Option Unit
  rightKnee : Option Unit
deriving DecidableEq, Repr

/-- Character.applyInputForces, restricted to the leg motor commands it
issues in one call.  The code first validates
`!this.joints.leftHip || !this.joints.rightHip || !this.joints.leftKnee ||
!this.joints.rightKnee` and returns early (issuing nothing at all) if any of
the four is null; otherwise it runs `applyQWOPControls`, which commands each
of the four joints. -/
def applyInputForcesLegCmds (joints : Joints) (inp : InputState) :
    List (LegJoint × MotorState) :=
  if joints.leftHip.isNone || joints.rightHip.isNone ||
      joints.leftKnee.isNone || joints.rightKnee.isNone then
    []
  else
    [(.leftHip, (applyQWOPControls inp).leftHip),
     (.rightHip, (applyQWOPControls inp).rightHip),
     (.leftKnee, (applyQWOPControls inp).leftKnee),
     (.rightKnee, (applyQWOPControls inp).rightKnee)]

/-! ### The impulse gate (C6)

`Character.applyInputForces` accumulates elapsed milliseconds into
`impulseTimer`; when the timer reaches `impulseInterval` (80 ms) it is reset
to 0 and `shouldApplyImpulse` is true for that step.  While Q is pressed and
the gate is open, one impulse is applied to the left thigh.
-/

/-- One `applyInputForces` update of the impulse timer: add the frame delta,
then fire and reset when the interval is reached.  Returns the new timer
value and `shouldApplyImpulse`. -/
def updateImpulseTimer (impulseTimer dt : ℚ) : ℚ × Bool :=
  let t := impulseTimer + dt
  if impulseInterval ≤ t then (0, true) else (t, false)

/-- Number of gated kick impulses applied to the left thigh over a run of
steps: `qs` lists whether Q is pressed at each step, `timer` is the current
impulse timer, `dt` the wall-clock milliseconds elapsed per step.  A kick
lands exactly when Q is pressed and the gate fired that step
(`thigh.applyImpulse` under `if (thigh && shouldApplyImpulse)`). -/
def countLeftThighKicks : List Bool → ℚ → ℚ → ℕ
  | [], _, _ => 0
  | qPressed :: rest, timer, dt =>
    let s := updateImpulseTimer timer dt
    (if qPressed && s.2 then 1 else 0) + countLeftThighKicks rest s.1 dt

/-! ### Arm swing impulses (C4)

The reciprocal arm-swing branch of `Character.applyArmBalancing`: when the
gate is open (`this.impulseTimer === 0`), the thigh whose x-position relative
to the torso is strictly greater determines the swing.
-/

/-- Arm swing impulses issued by one `applyArmBalancing` call, given the
world x-positions of the two thighs and the torso and whether the impulse
gate is open.  Returns `some (leftArmImpulse, rightArmImpulse)` - each an
(x, y) vector - when impulses are applied, `none` otherwise.  Mirrors the
source: left thigh strictly more forward sends the right arm forward by
(0.1, 0) and the left arm backward by (-0.05, 0); the strict comparison the
other way swaps the roles; otherwise no impulse. -/
def armSwingImpulses (leftThighX rightThighX torsoX : ℚ) (gateOpen : Bool) :
    Option ((ℚ × ℚ) × (ℚ × ℚ)) :=
  let leftThighRelativeX := leftThighX - torsoX
  let rightThighRelativeX := rightThighX - torsoX
  if leftThighRelativeX > rightThighRelativeX ∧ gateOpen = true then
    some ((-(1 / 20), 0), (1 / 10, 0))
  else if rightThighRelativeX > leftThighRelativeX ∧ gateOpen = true then
    some ((1 / 10, 0), (-(1 / 20), 0))
  else
    none

/-! ### Reset (C7)

`Character.reset` recreates all nine bodies at the spawn-derived positions
(`createPhysicsBodies`), explicitly zeroes every body's linear and angular
velocity, and recreates the joints, before `stabilizeJoints` applies its
one-shot torso impulse.
-/

/-- The nine rigid links of the skeleton. -/
inductive LinkId
  | torso
  | leftArm
  | rightArm
  | leftThigh
  | rightThigh
  | leftCalf
  | rightCalf
  | leftFoot
  | rightFoot
deriving DecidableEq, Repr

/-- Kinematic state of one rigid link. -/
structure BodyState where
  x : ℚ
  y : ℚ
  vx : ℚ
  vy : ℚ
  angvel : ℚ
deriving DecidableEq, Repr

/-- Character.createPhysicsBodies: positions of the nine links, derived from
the spawn point via the fixed offsets in the source (torso at the spawn
point; arms beside the upper torso; thighs below the hip anchors; calves
below the knees; feet below the ankles, shifted forward by 0.05).  Freshly
created Rapier dynamic bodies are at rest, so all velocities are zero. -/
def createPhysicsBodies (l : LinkId) : BodyState :=
  let x := initialPositionX
  let y := initialPositionY
  let torsoWidth : ℚ := 3 / 10
  let torsoHeight : ℚ := 3 / 5
  let thighHeight : ℚ := 9 / 20
  let calfHeight : ℚ := 9 / 20
  let footHeight : ℚ := 2 / 25
  let armWidth : ℚ := 1 / 10
  let hipOffsetY : ℚ := -(3 / 10)
  let thighXOffset : ℚ := 0
  let thighYOffset : ℚ := thighHeight / 2
  let calfXOffset : ℚ := 0
  let calfYOffset : ℚ := calfHeight / 2
  let footXOffset : ℚ := 1 / 20
  let leftKneeX := x - torsoWidth / 4 + 2 * thighXOffset
  let leftKneeY := y + hipOffsetY - 2 * thighYOffset
  let rightKneeX := x + torsoWidth / 4 + 2 * thighXOffset
  let rightKneeY := y + hipOffsetY - 2 * thighYOffset
  let leftAnkleX := leftKneeX + 2 * calfXOffset
  let leftAnkleY := leftKneeY - 2 * calfYOffset
  let rightAnkleX := rightKneeX + 2 * calfXOffset
  let rightAnkleY := rightKneeY - 2 * calfYOffset
  match l with
  | .torso => ⟨x, y, 0, 0, 0⟩
  | .leftArm => ⟨x - torsoWidth / 2 - armWidth / 2, y + torsoHeight / 4, 0, 0, 0⟩
  | .rightArm => ⟨x + torsoWidth / 2 + armWidth / 2, y + torsoHeight / 4, 0, 0, 0⟩
  | .leftThigh =>
    ⟨x - torsoWidth / 4 + thighXOffset, y + hipOffsetY - thighYOffset, 0, 0, 0⟩
  | .rightThigh =>
    ⟨x + torsoWidth / 4 + thighXOffset, y + hipOffsetY - thighYOffset, 0, 0, 0⟩
  | .leftCalf => ⟨leftKneeX + calfXOffset, leftKneeY - calfYOffset, 0, 0, 0⟩
  | .rightCalf => ⟨rightKneeX + calfXOffset, rightKneeY - calfYOffset, 0, 0, 0⟩
  | .leftFoot =>
    ⟨leftAnkleX + footXOffset, leftAnkleY - footHeight / 2, 0, 0, 0⟩
  | .rightFoot =>
    ⟨rightAnkleX + footXOffset, rightAnkleY - footHeight / 2, 0, 0, 0⟩

/-- Character.reset, up to (and not including) the `stabilizeJoints` torso
impulse: the bodies are recreated by `createPhysicsBodies` and every body's
linear and angular velocity is explicitly set to zero (`setLinvel`,
`setAngvel`); recreating the joints does not change any body state. -/
def resetBodies (l : LinkId) : BodyState :=
  let b := createPhysicsBodies l
  { b with vx := 0, vy := 0, angvel := 0 }

/-! ### Maximum-distance score (C10)

`Game.update` ends with: if `position.x > this.maxDistance` then
`this.maxDistance = position.x; this.ui.updateScore(this.maxDistance)`.
`Game.gameOver` shows `this.maxDistance`, and `Game.start` initializes it
to 0 (the torso's spawn x).
-/

/-- One `Game.update` maximum-distance step: the recorded maximum changes
only when the torso x strictly exceeds it. -/
def updateMaxDistance (maxDistance positionX : ℚ) : ℚ :=
  if positionX > maxDistance then positionX else maxDistance

/-- Final score of a run: the recorded maximum after folding
`updateMaxDistance` from the initial 0 over the torso x-positions sampled at
each update step. -/
def finalScore (xs : List ℚ) : ℚ := xs.foldl updateMaxDistance 0

/-! ### Balance feedback controller (C1)

`Character.applyArmBalancing` reads the torso rotation and angular velocity
and commands both shoulder position motors toward the same target angle.
The shoulder rest angle and limits involve pi, so this part is modelled over
the reals.
-/

/-- CHARACTER.JOINTS.SHOULDER.STIFFNESS = 8.0 -/
def shoulderStiffness : ℝ := 8

/-- CHARACTER.JOINTS.SHOULDER.DAMPING = 1.2 -/
noncomputable def shoulderDamping : ℝ := 6 / 5

/-- CHARACTER.JOINTS.SHOULDER.REST_ANGLE = pi / 8 -/
noncomputable def shoulderRestAngle : ℝ := Real.pi / 8

/-- CHARACTER.JOINTS.SHOULDER.MIN_ANGLE = -pi / 2 -/
noncomputable def shoulderMinAngle : ℝ := -(Real.pi / 2)

/-- CHARACTER.JOINTS.SHOULDER.MAX_ANGLE = pi / 2 -/
noncomputable def shoulderMaxAngle : ℝ := Real.pi / 2

/-- counterbalanceStrength = -3.0 in applyArmBalancing. -/
def counterbalanceStrength : ℝ := -(3 : ℝ)

/-- predictiveStrength = -2.0 in applyArmBalancing. -/
def predictiveStrength : ℝ := -(2 : ℝ)

/-- leftArmTargetAngle in applyArmBalancing: counterbalance gain times torso
rotation plus predictive gain times torso angular velocity plus the shoulder
rest angle.  Applied to the left shoulder motor exactly as computed. -/
noncomputable def leftArmTargetAngle (torsoRotation torsoAngularVel : ℝ) : ℝ :=
  counterbalanceStrength * torsoRotation + predictiveStrength * torsoAngularVel +
    shoulderRestAngle

/-- rightArmTargetAngle in applyArmBalancing: the same formula as the left
target. -/
noncomputable def rightArmTargetAngle (torsoRotation torsoAngularVel : ℝ) : ℝ :=
  counterbalanceStrength * torsoRotation + predictiveStrength * torsoAngularVel +
    shoulderRestAngle

/-- balanceStiffness = SHOULDER.STIFFNESS * 2.0 in applyArmBalancing. -/
noncomputable def balanceStiffness : ℝ := shoulderStiffness * 2

/-- balanceDamping = SHOULDER.DAMPING * 1.5 in applyArmBalancing. -/
noncomputable def balanceDamping : ℝ := shoulderDamping * (3 / 2)

/-- Modelled from the spec: clamping a commanded target angle to the
shoulder joint's angular limits, as claim C1 asserts the controller does.
The source computes `leftArmTargetAngle` and passes it to
`configureMotorPosition` without any such clamp; this definition exists to
compare the claimed behavior against the code's. -/
noncomputable def clampToShoulderLimits (a : ℝ) : ℝ :=
  max shoulderMinAngle (min shoulderMaxAngle a)

/-! ### Fall detector (C5)

`Character.isHeadTouchingGround` computes the head's world position
analytically from the torso pose and compares the head-bottom height with
GAME_OVER.HEAD_GROUND_THRESHOLD.
-/

/-- CHARACTER.PARTS.TORSO.HEIGHT = 0.6 -/
noncomputable def torsoHeight : ℝ := 3 / 5

/-- torsoHeadOffset in isHeadTouchingGround: half torso height plus the 0.1
neck length. -/
noncomputable def torsoHeadOffset : ℝ := torsoHeight / 2 + 1 / 10

/-- headRadius = 0.15 in isHeadTouchingGround. -/
noncomputable def headRadius : ℝ := 3 / 20

/-- GAME_OVER.HEAD_GROUND_THRESHOLD = -4.8 -/
noncomputable def headGroundThreshold : ℝ := -(24 / 5)

/-- Head world position computed in isHeadTouchingGround from the torso
translation and rotation: the offset vector is rotated by the torso rotation
and added to the torso position. -/
noncomputable def headPosition (torsoX torsoY torsoRotation : ℝ) : ℝ × ℝ :=
  (torsoX - Real.sin torsoRotation * torsoHeadOffset,
   torsoY + Real.cos torsoRotation * torsoHeadOffset)

/-- Character.isHeadTouchingGround: the run is over when the head bottom
(head y minus head radius) is at or below the ground threshold. -/
noncomputable def isHeadTouchingGround (torsoX torsoY torsoRotation : ℝ) : Prop :=
  (headPosition torsoX torsoY torsoRotation).2 - headRadius ≤ headGroundThreshold

/-! ### Wall-clock stabilization timers across reset (C8)

`Character.stabilizeJoints` raises the damping of every current body (torso
to 1.0) and schedules a `setTimeout` 500 ms ahead that lowers every *current*
body's damping to 0.5 and schedules a second timeout that restores 0.15.
`Character.reset` rebuilds the bodies (reassigning the fields of
`this.bodies` in place) and calls `stabilizeJoints` again, but never cancels
timers scheduled by an earlier call; a pending callback therefore operates on
whatever bodies `this.bodies` holds when it fires.  Skeleton instances are
told apart by a generation number bumped on each rebuild.
-/

/-- State of the stabilization timeline: current wall-clock time in
milliseconds, the generation of the currently live skeleton, the torso
linear damping of each generation's skeleton, and the pending setTimeout
callbacks as (fire time, isFirstRelaxStep) pairs. -/
structure StabSimState where
  now : ℚ
  curGen : ℕ
  torsoDamp : ℕ → ℚ
  timers : List (ℚ × Bool)

/-- Character.stabilizeJoints, restricted to the torso damping schedule: set
the current torso's linear damping to 1.0 and schedule the first relaxation
callback 500 ms from now. -/
def stabilizeJoints (s : StabSimState) : StabSimState :=
  { s with
    torsoDamp := Function.update s.torsoDamp s.curGen 1
    timers := s.timers ++ [(s.now + 500, true)] }

/-- Character.reset: rebuild the skeleton (a fresh generation whose bodies
are created with PHYSICS.LINEAR_DAMPING = 0.15) and run `stabilizeJoints` on
it.  Pending timers from earlier stabilization sequences are left untouched
- the source never cancels them. -/
def characterReset (s : StabSimState) : StabSimState :=
  stabilizeJoints
    { s with
      curGen := s.curGen + 1
      torsoDamp := Function.update s.torsoDamp (s.curGen + 1) linearDamping }

/-- Firing of a pending first-relaxation setTimeout callback at `fireTime`:
the callback reads `this.bodies` - the *currently* live generation - sets
every body's linear damping to 0.5, and schedules the second relaxation
another 500 ms ahead. -/
def fireFirstRelaxTimer (s : StabSimState) (fireTime : ℚ) : StabSimState :=
  { s with
    now := fireTime
    torsoDamp := Function.update s.torsoDamp s.curGen (1 / 2)
    timers :=
      (s.timers.filter (fun t => decide (t.1 ≠ fireTime) || !t.2)) ++
        [(fireTime + 500, false)] }

/-- Scenario start: skeleton generation 0 just built at time 0, bodies at
the default damping, no pending timers. -/
def stabTrace0 : StabSimState := ⟨0, 0, fun _ => linearDamping, []⟩

/-- Character.init at time 0 runs stabilizeJoints, scheduling its first
relaxation callback for t = 500 ms. -/
def stabTrace1 : StabSimState := stabilizeJoints stabTrace0

/-- Character.reset called at t = 300 ms, mid-sequence: generation 1 is
built and stabilized (torso damping 1.0), its own first relaxation callback
scheduled for t = 800 ms.  The t = 500 ms callback from generation 0's
sequence is still pending. -/
def stabTrace2 : StabSimState := characterReset { stabTrace1 with now := 300 }

/-- At t = 500 ms the stale callback scheduled before the reset fires and
mutates the currently live skeleton - generation 1, built after the reset. -/
def stabTrace3 : StabSimState := fireFirstRelaxTimer stabTrace2 500

/-! ## Theorems for the claims -/

/-! ### C1 - balance feedback controller -/

/-- C1 counterexample: the computed shoulder target is not clamped to the
shoulder joint's angular limits.  At torso rotation -2 rad and angular
velocity 0 the code commands the target 6 + pi/8, which exceeds the +pi/2
limit, so the commanded value differs from its clamped version - refuting
the claim that the computed target value is clamped to the limits. -/
theorem arm_balance_target_not_clamped :
    shoulderMaxAngle < leftArmTargetAngle (-2) 0 ∧
    leftArmTargetAngle (-2) 0 ≠ clampToShoulderLimits (leftArmTargetAngle (-2) 0) := by
  have hv : leftArmTargetAngle (-2) 0 = 6 + Real.pi / 8 := by
    unfold leftArmTargetAngle counterbalanceStrength predictiveStrength shoulderRestAngle
    ring
  have hlt : Real.pi / 2 < 6 + Real.pi / 8 := by
    nlinarith [Real.pi_lt_d2]
  have hmax : shoulderMaxAngle = Real.pi / 2 := rfl
  refine ⟨by rw [hv, hmax]; exact hlt, ?_⟩
  rw [hv]
  unfold clampToShoulderLimits shoulderMinAngle shoulderMaxAngle
  rw [min_eq_left hlt.le,
    max_eq_right (by nlinarith [Real.pi_pos] : -(Real.pi / 2) ≤ Real.pi / 2)]
  exact hlt.ne'

/-- C1 (amended): every step, the balance controller computes the shoulder
target angle as k1 * theta + k2 * omega + shoulderRestAngle with k1 = -3.0,
k2 = -2.0 and shoulderRestAngle = pi/8, commands the identical target to both
shoulder position motors with 2x the nominal shoulder stiffness and 1.5x the
nominal damping, and applies the computed value as-is, without clamping; for
theta = 0.3 rad, omega = -0.5 rad/s the target is within 0.001 of 0.4927 rad
and happens to lie inside the joint's angular limits. -/
theorem arm_balance_controller :
    (∀ θ ω : ℝ,
      leftArmTargetAngle θ ω = -3 * θ + -2 * ω + Real.pi / 8 ∧
      rightArmTargetAngle θ ω = leftArmTargetAngle θ ω) ∧
    balanceStiffness = 2 * shoulderStiffness ∧
    balanceDamping = (3 / 2) * shoulderDamping ∧
    |leftArmTargetAngle (3 / 10) (-(1 / 2)) - 4927 / 10000| < 1 / 1000 ∧
    shoulderMinAngle ≤ leftArmTargetAngle (3 / 10) (-(1 / 2)) ∧
    leftArmTargetAngle (3 / 10) (-(1 / 2)) ≤ shoulderMaxAngle := by
  have hv : leftArmTargetAngle (3 / 10) (-(1 / 2)) = 1 / 10 + Real.pi / 8 := by
    unfold leftArmTargetAngle counterbalanceStrength predictiveStrength shoulderRestAngle
    ring
  have hπ₁ := Real.pi_gt_d6
  have hπ₂ := Real.pi_lt_d6
  refine ⟨fun θ ω => ⟨?_, ?_⟩, ?_, ?_, ?_, ?_, ?_⟩
  · unfold leftArmTargetAngle counterbalanceStrength predictiveStrength shoulderRestAngle
    ring
  · unfold leftArmTargetAngle rightArmTargetAngle
    ring
  · unfold balanceStiffness; ring
  · unfold balanceDamping; ring
  · rw [hv, abs_lt]
    constructor <;> linarith
  · rw [hv]; unfold shoulderMinAngle; linarith
  · rw [hv]; unfold shoulderMaxAngle; linarith

/-! ### C2 - hip drive release -/

/-- C2 counterexample: with the left hip key released, the code leaves the
left hip in a velocity drive with target velocity 0 and max force 0.1
(`configureMotorVelocity(0, 0.1)` in disableJointMotor), which is not the
Disabled motor state the claim asserts. -/
theorem hip_release_not_disabled :
    (applyQWOPControls ⟨false, false, false, false⟩).leftHip =
      MotorState.velocityDrive 0 (1 / 10) ∧
    (applyQWOPControls ⟨false, false, false, false⟩).leftHip ≠ MotorState.disabled := by
  refine ⟨?_, ?_⟩ <;> simp [applyQWOPControls, disableJointMotor]

/-- C2 (amended): for every update step in which the hip-drive input for a
hip (Q for left, W for right) is not pressed, that hip joint's motor is set
within that same step to VelocityDrive with target velocity 0 and max force
0.1 - the code's "effectively disabled" weak drive, with no spring return
but a residual motor of max force 0.1 - rather than a true Disabled state. -/
theorem hip_release_weak_velocity_drive (inp : InputState) :
    (inp.q = false →
      (applyQWOPControls inp).leftHip = MotorState.velocityDrive 0 (1 / 10)) ∧
    (inp.w = false →
      (applyQWOPControls inp).rightHip = MotorState.velocityDrive 0 (1 / 10)) := by
  constructor <;> intro h <;>
    simp [applyQWOPControls, disableJointMotor, h]

/-- C2 witness: the amended statement evaluated with all keys released. -/
theorem hip_release_weak_velocity_drive_witness :
    (applyQWOPControls ⟨false, false, false, false⟩).leftHip =
      MotorState.velocityDrive 0 (1 / 10) ∧
    (applyQWOPControls ⟨false, false, false, false⟩).rightHip =
      MotorState.velocityDrive 0 (1 / 10) :=
  ⟨(hip_release_weak_velocity_drive ⟨false, false, false, false⟩).1 rfl,
   (hip_release_weak_velocity_drive ⟨false, false, false, false⟩).2 rfl⟩

/-! ### C3 - knee extend release -/

/-- C3: for every update step in which the knee-extend input for a knee
(O for left, P for right) is not pressed, that knee joint's motor becomes
PositionHold with target angle KNEE_REST_ANGLE = -0.05, stiffness twice the
nominal knee stiffness (10) and damping twice the nominal knee damping (1),
within that same step. -/
theorem knee_release_position_hold (inp : InputState) :
    kneeRestAngle = -(1 / 20) ∧ kneeStiffness = 10 ∧ kneeDamping = 1 ∧
    (inp.o = false →
      (applyQWOPControls inp).leftKnee =
        MotorState.positionHold kneeRestAngle (kneeStiffness * 2) (kneeDamping * 2)) ∧
    (inp.p = false →
      (applyQWOPControls inp).rightKnee =
        MotorState.positionHold kneeRestAngle (kneeStiffness * 2) (kneeDamping * 2)) := by
  refine ⟨rfl, rfl, rfl, fun h => ?_, fun h => ?_⟩ <;>
    simp [applyQWOPControls, h]

/-- C3 witness: the statement evaluated with all keys released. -/
theorem knee_release_position_hold_witness :
    (applyQWOPControls ⟨false, false, false, false⟩).leftKnee =
      MotorState.positionHold kneeRestAngle (kneeStiffness * 2) (kneeDamping * 2) ∧
    (applyQWOPControls ⟨false, false, false, false⟩).rightKnee =
      MotorState.positionHold kneeRestAngle (kneeStiffness * 2) (kneeDamping * 2) :=
  ⟨(knee_release_position_hold ⟨false, false, false, false⟩).2.2.2.1 rfl,
   (knee_release_position_hold ⟨false, false, false, false⟩).2.2.2.2 rfl⟩

/-! ### C4 - reciprocal arm swing -/

/-- C4: with the impulse gate open, a strictly greater forward offset of the
left thigh relative to the torso sends a forward impulse (0.1, 0) to the
right arm and a backward impulse (-0.05, 0) to the left arm; the strict
comparison the other way swaps the roles; equal forward offsets produce no
swing impulse at all. -/
theorem arm_swing_impulse_rule (lx rx tx : ℚ) :
    (lx - tx > rx - tx →
      armSwingImpulses lx rx tx true = some ((-(1 / 20), 0), (1 / 10, 0))) ∧
    (rx - tx > lx - tx →
      armSwingImpulses lx rx tx true = some ((1 / 10, 0), (-(1 / 20), 0))) ∧
    (lx - tx = rx - tx → armSwingImpulses lx rx tx true = none) := by
  refine ⟨fun h => ?_, fun h => ?_, fun h => ?_⟩
  · simp only [armSwingImpulses]
    rw [if_pos ⟨h, by trivial⟩]
  · simp only [armSwingImpulses]
    rw [if_neg fun hc => absurd hc.1 (not_lt_of_gt h), if_pos ⟨h, by trivial⟩]
  · simp only [armSwingImpulses]
    rw [if_neg fun hc => absurd hc.1 (by rw [h]; exact lt_irrefl _),
      if_neg fun hc => absurd hc.1 (by rw [h]; exact lt_irrefl _)]

/-- C4 witness: the three branches evaluated at concrete thigh offsets. -/
theorem arm_swing_impulse_rule_witness :
    armSwingImpulses 1 0 0 true = some ((-(1 / 20), 0), (1 / 10, 0)) ∧
    armSwingImpulses 0 1 0 true = some ((1 / 10, 0), (-(1 / 20), 0)) ∧
    armSwingImpulses 1 1 0 true = none :=
  ⟨(arm_swing_impulse_rule 1 0 0).1 (by norm_num),
   (arm_swing_impulse_rule 0 1 0).2.1 (by norm_num),
   (arm_swing_impulse_rule 1 1 0).2.2 rfl⟩

/-! ### C5 - fall detector -/

/-- C5: the fall detector computes the head world position as the torso
position plus the offset (half torso height + 0.1 neck length) rotated by
the torso orientation, and reports a fall exactly when the head bottom
(head y minus the 0.15 head radius) is at or below the -4.8 ground
threshold; with the torso at y = -3.5 and rotation 0 the head bottom is at
-3.25, above the threshold, so the run continues. -/
theorem fall_detector_rule :
    (∀ x y r : ℝ,
      headPosition x y r =
        (x - Real.sin r * torsoHeadOffset, y + Real.cos r * torsoHeadOffset) ∧
      (isHeadTouchingGround x y r ↔
        (headPosition x y r).2 - headRadius ≤ headGroundThreshold)) ∧
    torsoHeadOffset = 3 / 5 / 2 + 1 / 10 ∧
    headRadius = 3 / 20 ∧
    headGroundThreshold = -(24 / 5) ∧
    (headPosition 0 (-(7 / 2)) 0).2 - headRadius = -(13 / 4) ∧
    ¬ isHeadTouchingGround 0 (-(7 / 2)) 0 := by
  have hb : (headPosition 0 (-(7 / 2)) 0).2 - headRadius = -(13 / 4) := by
    unfold headPosition torsoHeadOffset torsoHeight headRadius
    rw [Real.cos_zero]
    norm_num
  refine ⟨fun x y r => ⟨rfl, Iff.rfl⟩, ?_, rfl, ?_, hb, ?_⟩
  · unfold torsoHeadOffset torsoHeight; norm_num
  · unfold headGroundThreshold; norm_num
  · unfold isHeadTouchingGround
    rw [hb]
    unfold headGroundThreshold
    norm_num

/-! ### C6 - impulse gate decoupled from step rate -/

/-- C6: holding the left-thigh drive key continuously for 500 ms while
stepping at a fixed 60 Hz (30 steps of 50/3 ms each) produces exactly 6
gated kick impulses on the left thigh - one per 80 ms gate period - and not
one per physics step. -/
theorem impulse_gate_six_kicks :
    countLeftThighKicks (List.replicate 30 true) 0 (50 / 3) = 6 := by
  norm_num [countLeftThighKicks, updateImpulseTimer, impulseInterval, List.replicate]

/-! ### C7 - reset determinism -/

/-- C7: immediately after the reset pipeline has recreated the bodies and
zeroed their velocities - the point before stabilizeJoints applies its
one-shot impulse - every link has linear velocity exactly zero and angular
velocity exactly zero, and the torso sits at the configured spawn point
(0, -3.5). -/
theorem reset_zero_velocities_at_spawn (l : LinkId) :
    (resetBodies l).vx = 0 ∧ (resetBodies l).vy = 0 ∧ (resetBodies l).angvel = 0 ∧
    (resetBodies .torso).x = 0 ∧ (resetBodies .torso).y = -(7 / 2) :=
  ⟨rfl, rfl, rfl, rfl, rfl⟩

/-! ### C8 - stale stabilization timers across reset -/

/-- C8: the code violates the claim.  A reset at t = 300 ms builds skeleton
generation 1 and stabilizes it (torso damping 1.0), but the relaxation
setTimeout scheduled by the stabilization sequence started before the reset
still fires at t = 500 ms and sets the freshly built skeleton's torso
damping to 0.5 - a phase of a cancelled sequence mutating the new skeleton,
which the wall-clock timers of the source permit and simulated-time phase
advancement would prevent. -/
theorem stale_timer_mutates_new_skeleton :
    stabTrace2.curGen = 1 ∧
    stabTrace2.torsoDamp 1 = 1 ∧
    stabTrace3.torsoDamp 1 = 1 / 2 ∧
    stabTrace3.torsoDamp 1 ≠ stabTrace2.torsoDamp 1 := by
  refine ⟨rfl, ?_, ?_, ?_⟩ <;>
    norm_num [stabTrace3, stabTrace2, stabTrace1, stabTrace0, fireFirstRelaxTimer,
      characterReset, stabilizeJoints, Function.update]

/-! ### C9 - null joint failure policy -/

/-- C9 counterexample: with only the left hip null and the right-thigh key
pressed, the controller issues no motor command at all - in particular the
healthy right hip is not driven - refuting the claim that every other joint
continues to be driven normally. -/
theorem single_null_joint_disables_all :
    applyInputForcesLegCmds ⟨none, some (), some (), some ()⟩ ⟨true, true, true, true⟩ = [] ∧
    (LegJoint.rightHip, MotorState.velocityDrive 20 100) ∉
      applyInputForcesLegCmds ⟨none, some (), some (), some ()⟩ ⟨true, true, true, true⟩ := by
  refine ⟨rfl, ?_⟩
  intro h
  simp [applyInputForcesLegCmds] at h

/-- C9 (amended): if any of the four leg joints failed to be created (null
reference), applyInputForces returns early and issues no motor command to
any joint that update step - the whole character degrades to passive, not
just the limb with the failed joint - and the controller does not fault;
only when all four leg joints exist is each driven according to its input. -/
theorem null_leg_joint_whole_character_passive (joints : Joints) (inp : InputState) :
    ((joints.leftHip = none ∨ joints.rightHip = none ∨ joints.leftKnee = none ∨
        joints.rightKnee = none) →
      applyInputForcesLegCmds joints inp = []) ∧
    (joints.leftHip ≠ none → joints.rightHip ≠ none → joints.leftKnee ≠ none →
      joints.rightKnee ≠ none →
      applyInputForcesLegCmds joints inp =
        [(.leftHip, (applyQWOPControls inp).leftHip),
         (.rightHip, (applyQWOPControls inp).rightHip),
         (.leftKnee, (applyQWOPControls inp).leftKnee),
         (.rightKnee, (applyQWOPControls inp).rightKnee)]) := by
  constructor
  · rintro (h | h | h | h) <;> simp [applyInputForcesLegCmds, h]
  · intro h1 h2 h3 h4
    obtain ⟨u1, hu1⟩ := Option.ne_none_iff_exists'.mp h1
    obtain ⟨u2, hu2⟩ := Option.ne_none_iff_exists'.mp h2
    obtain ⟨u3, hu3⟩ := Option.ne_none_iff_exists'.mp h3
    obtain ⟨u4, hu4⟩ := Option.ne_none_iff_exists'.mp h4
    simp [applyInputForcesLegCmds, hu1, hu2, hu3, hu4]

/-- C9 witness: the amended statement evaluated at a broken right hip and at
a fully built skeleton. -/
theorem null_leg_joint_whole_character_passive_witness :
    applyInputForcesLegCmds ⟨some (), none, some (), some ()⟩ ⟨true, false, true, false⟩ = [] ∧
    applyInputForcesLegCmds ⟨some (), some (), some (), some ()⟩ ⟨true, false, true, false⟩ =
      [(.leftHip, (applyQWOPControls ⟨true, false, true, false⟩).leftHip),
       (.rightHip, (applyQWOPControls ⟨true, false, true, false⟩).rightHip),
       (.leftKnee, (applyQWOPControls ⟨true, false, true, false⟩).leftKnee),
       (.rightKnee, (applyQWOPControls ⟨true, false, true, false⟩).rightKnee)] :=
  ⟨(null_leg_joint_whole_character_passive ⟨some (), none, some (), some ()⟩
      ⟨true, false, true, false⟩).1 (Or.inr (Or.inl rfl)),
   (null_leg_joint_whole_character_passive ⟨some (), some (), some (), some ()⟩
      ⟨true, false, true, false⟩).2 (by simp) (by simp) (by simp) (by simp)⟩

/-! ### C10 - monotone maximum-distance score -/

/-- Helper: one update of the recorded maximum is exactly the binary max. -/
theorem updateMaxDistance_eq_max (m x : ℚ) : updateMaxDistance m x = max m x := by
  rw [updateMaxDistance]
  rcases lt_or_ge m x with h | h
  · rw [if_pos h, max_eq_right h.le]
  · rw [if_neg (not_lt.mpr h), max_eq_left h]

/-- Helper: the recorded-maximum fold agrees with the max fold from any
starting value. -/
theorem foldl_updateMaxDistance_eq_max (a : ℚ) (l : List ℚ) :
    l.foldl updateMaxDistance a = l.foldl max a := by
  induction l generalizing a with
  | nil => rfl
  | cons x t ih => simp [List.foldl_cons, updateMaxDistance_eq_max, ih]

/-- C10: the recorded maximum distance changes only on steps whose torso x
strictly exceeds it (so the displayed score never decreases within a run),
extending a run can only increase the final score, and the final score
equals the maximum of the spawn x-position 0 and every torso x-position
sampled during the run. -/
theorem max_distance_score (xs : List ℚ) :
    (∀ m x : ℚ, x ≤ m → updateMaxDistance m x = m) ∧
    (∀ x : ℚ, finalScore xs ≤ finalScore (xs ++ [x])) ∧
    finalScore xs = xs.foldl max 0 := by
  refine ⟨fun m x h => by rw [updateMaxDistance, if_neg (not_lt.mpr h)], fun x => ?_, ?_⟩
  · have hstep : finalScore (xs ++ [x]) = max (finalScore xs) x := by
      rw [finalScore, finalScore, List.foldl_append, List.foldl_cons, List.foldl_nil,
        updateMaxDistance_eq_max]
    rw [hstep]
    exact le_max_left _ _
  · exact foldl_updateMaxDistance_eq_max 0 xs

/-- C10 witness: the statement evaluated on a concrete run. -/
theorem max_distance_score_witness :
    updateMaxDistance 3 2 = 3 ∧
    finalScore [1, 3] ≤ finalScore ([1, 3] ++ [2]) ∧
    finalScore [1, 3] = [1, 3].foldl max 0 :=
  ⟨(max_distance_score [1, 3]).1 3 2 (by norm_num),
   (max_distance_score [1, 3]).2.1 2,
   (max_distance_score [1, 3]).2.2⟩

end QWOP
